import Mathlib

/-!
Verification of the NEPSE pump-and-dump detector backend
(src/backend/main.py) against its natural-language specification.

Numeric feed fields (prices, percent change, traded volume) are embedded
as rationals; the integer risk score accumulated by the weighted scorer
is a natural number.  Signal strings are embedded as an inductive type,
one constructor per distinct message emitted by the code; the volatility
signal carries the volatility value that the code interpolates into the
message text.
-/

namespace Nepse

/-- Risk levels produced by the weighted scorer
("High" / "Medium" / "Low" strings in src/backend/main.py, lines 145-150). -/
inductive RiskLevel where
  | low
  | medium
  | high
deriving Repr, DecidableEq

/-- Signal messages appended by analyze_stock (src/backend/main.py).
`highVolatility` carries the volatility percentage that the code formats
into the message. -/
inductive Signal where
  | unusualPriceSpike
  | significantPriceIncrease
  | highTradingVolume
  | elevatedTradingVolume
  | highVolatility (value : ℚ)
  | noSuspiciousPatterns
deriving Repr, DecidableEq

/-- One raw per-symbol feed record, with the fields that
src/backend/main.py reads from it (percentageChange, totalTradeQuantity,
lastTradedPrice, highPrice, lowPrice, symbol). -/
structure Stock where
  symbol : String
  lastTradedPrice : ℚ
  percentageChange : ℚ
  totalTradeQuantity : ℚ
  highPrice : ℚ
  lowPrice : ℚ
deriving Repr, DecidableEq

/-- Result model of analyze_stock (class StockAnalysis,
src/backend/main.py lines 21-28). -/
structure StockAnalysis where
  symbol : String
  current_price : ℚ
  price_change_percent : ℚ
  volume : ℚ
  risk_score : ℕ
  risk_level : RiskLevel
  signals : List Signal
deriving Repr, DecidableEq

/-- Scoring loop of analyze_stock (src/backend/main.py lines 116-143):
starting from an empty signal list and a zero score, the price-change
check, the volume check and the volatility check run in order, each
appending its signal and adding its weight when triggered.  Returns the
accumulated signal list and raw risk score. -/
def scoreChecks (stock : Stock) : List Signal × ℕ :=
  let price_change := stock.percentageChange
  let volume := stock.totalTradeQuantity
  let acc1 : List Signal × ℕ :=
    if price_change > 10 then ([Signal.unusualPriceSpike], 0 + 40)
    else if price_change > 5 then ([Signal.significantPriceIncrease], 0 + 20)
    else ([], 0)
  let acc2 : List Signal × ℕ :=
    if volume > 100000 then (acc1.1 ++ [Signal.highTradingVolume], acc1.2 + 30)
    else if volume > 50000 then (acc1.1 ++ [Signal.elevatedTradingVolume], acc1.2 + 15)
    else acc1
  let high := stock.highPrice
  let low := stock.lowPrice
  if high > 0 ∧ low > 0 then
    let volatility := ((high - low) / low) * 100
    if volatility > 5 then (acc2.1 ++ [Signal.highVolatility volatility], acc2.2 + 20)
    else acc2
  else acc2

/-- Risk-level thresholds and the low-risk fallback signal
(src/backend/main.py lines 144-152). -/
def riskLevelAndSignals (risk_score : ℕ) (signals : List Signal) :
    RiskLevel × List Signal :=
  if risk_score ≥ 70 then (RiskLevel.high, signals)
  else if risk_score ≥ 40 then (RiskLevel.medium, signals)
  else (RiskLevel.low,
    if signals = [] then [Signal.noSuspiciousPatterns] else signals)

/-- Core of the analyze_stock endpoint (src/backend/main.py lines
94-162) after the feed record has been fetched: run the scoring checks,
derive the risk level, and build the StockAnalysis response with the
score clamped by min(risk_score, 100). -/
def analyze_stock (stock : Stock) : StockAnalysis :=
  let checked := scoreChecks stock
  let leveled := riskLevelAndSignals checked.2 checked.1
  { symbol := stock.symbol
    current_price := stock.lastTradedPrice
    price_change_percent := stock.percentageChange
    volume := stock.totalTradeQuantity
    risk_score := min checked.2 100
    risk_level := leveled.1
    signals := leveled.2 }

/-- Price-change contribution as the spec states it: an independent
check worth +40 when change > 10, else +20 when change > 5. -/
def specPriceScore (change : ℚ) : ℕ :=
  if change > 10 then 40 else if change > 5 then 20 else 0

/-- Signal appended by the price-change check, as the spec states it. -/
def specPriceSignals (change : ℚ) : List Signal :=
  if change > 10 then [Signal.unusualPriceSpike]
  else if change > 5 then [Signal.significantPriceIncrease]
  else []

/-- Volume contribution as the spec states it: an independent check
worth +30 when volume > 100000, else +15 when volume > 50000. -/
def specVolumeScore (volume : ℚ) : ℕ :=
  if volume > 100000 then 30 else if volume > 50000 then 15 else 0

/-- Signal appended by the volume check, as the spec states it. -/
def specVolumeSignals (volume : ℚ) : List Signal :=
  if volume > 100000 then [Signal.highTradingVolume]
  else if volume > 50000 then [Signal.elevatedTradingVolume]
  else []

/-- Volatility contribution as the spec states it: +20 when both the
session high and low are positive and (high-low)/low*100 exceeds 5. -/
def specVolatilityScore (high low : ℚ) : ℕ :=
  if high > 0 ∧ low > 0 ∧ ((high - low) / low) * 100 > 5 then 20 else 0

/-- Signal appended by the volatility check, as the spec states it,
carrying the volatility value. -/
def specVolatilitySignals (high low : ℚ) : List Signal :=
  if high > 0 ∧ low > 0 ∧ ((high - low) / low) * 100 > 5 then
    [Signal.highVolatility (((high - low) / low) * 100)]
  else []

/-- Division on rationals made fallible: fails exactly when the divisor
is zero, so a successful result witnesses that no zero division took
place. -/
def checkedDiv (a b : ℚ) : Option ℚ :=
  if b = 0 then none else some (a / b)

/-- Variant of the scoring loop in which the volatility ratio uses the
fallible division: succeeds only if the division (high - low) / low
inside the volatility check never sees a zero divisor. -/
def scoreChecksChecked (stock : Stock) : Option (List Signal × ℕ) :=
  let price_change := stock.percentageChange
  let volume := stock.totalTradeQuantity
  let acc1 : List Signal × ℕ :=
    if price_change > 10 then ([Signal.unusualPriceSpike], 0 + 40)
    else if price_change > 5 then ([Signal.significantPriceIncrease], 0 + 20)
    else ([], 0)
  let acc2 : List Signal × ℕ :=
    if volume > 100000 then (acc1.1 ++ [Signal.highTradingVolume], acc1.2 + 30)
    else if volume > 50000 then (acc1.1 ++ [Signal.elevatedTradingVolume], acc1.2 + 15)
    else acc1
  let high := stock.highPrice
  let low := stock.lowPrice
  if high > 0 ∧ low > 0 then
    match checkedDiv (high - low) low with
    | none => none
    | some q =>
      let volatility := q * 100
      if volatility > 5 then
        some (acc2.1 ++ [Signal.highVolatility volatility], acc2.2 + 20)
      else some acc2
  else some acc2

/-- Pattern labels of the tiered threshold classifier (Strategy A). -/
inductive Pattern where
  | pump
  | dump
  | unusual
  | normal
deriving Repr, DecidableEq

/-- Modelled from the spec: the tiered threshold classifier (Strategy A)
is described in the spec as one of the two scoring algorithms exhibited
by the source system, but no file under src/ contains it; only the
weighted scorer appears in src/backend/main.py.  Following the spec's
words: PUMP if spike ≥ 3.0 and change ≥ +5%; DUMP if spike ≥ 3.0 and
change ≤ −5%; UNUSUAL if spike ≥ 2.0 or abs change ≥ 3%; else
NORMAL. -/
def classifyPattern (spike change : ℚ) : Pattern :=
  if spike ≥ 3 ∧ change ≥ 5 then Pattern.pump
  else if spike ≥ 3 ∧ change ≤ -5 then Pattern.dump
  else if spike ≥ 2 ∨ |change| ≥ 3 then Pattern.unusual
  else Pattern.normal

/-- Selectable classification strategies: the tiered threshold
classifier (Strategy A) or the additive weighted scorer (Strategy B). -/
inductive Strategy where
  | tiered
  | weighted
deriving Repr, DecidableEq

/-- Output of a classification run: a pattern label from Strategy A or
a scored analysis from Strategy B. -/
inductive Classification where
  | labeled (p : Pattern)
  | scored (a : StockAnalysis)
deriving Repr, DecidableEq

/-- Modelled from the spec: classifier selection is a configuration
choice exposed to the caller, dispatching between the two strategies. -/
def classify (strategy : Strategy) (stock : Stock) (spike : ℚ) :
    Classification :=
  match strategy with
  | Strategy.tiered =>
      Classification.labeled (classifyPattern spike stock.percentageChange)
  | Strategy.weighted => Classification.scored (analyze_stock stock)

/-- One entry of the suspicious-stocks response
(src/backend/main.py lines 189-195): a projection of the raw stock
record plus a risk indicator string. -/
structure SuspiciousEntry where
  symbol : String
  ltp : ℚ
  change_percent : ℚ
  volume : ℚ
  risk_indicator : String
deriving Repr, DecidableEq

/-- Suspicious filter of get_suspicious_stocks
(src/backend/main.py line 188): price change above 5 or volume above
50000. -/
def is_suspicious (stock : Stock) : Bool :=
  stock.percentageChange > 5 ∨ stock.totalTradeQuantity > 50000

/-- Projection of a raw stock record into a suspicious-stocks entry
(src/backend/main.py lines 189-195). -/
def suspiciousEntry (stock : Stock) : SuspiciousEntry :=
  { symbol := stock.symbol
    ltp := stock.lastTradedPrice
    change_percent := stock.percentageChange
    volume := stock.totalTradeQuantity
    risk_indicator :=
      if stock.percentageChange > 10 then "High" else "Medium" }

/-- Stable insertion step for sorting entries by change_percent in
descending order: the inserted element goes before the first strictly
smaller key and after all keys at least as large that precede it in the
original list, matching the stability of Python's list.sort with
reverse=True (src/backend/main.py line 198). -/
def insertByChangeDesc (e : SuspiciousEntry) :
    List SuspiciousEntry → List SuspiciousEntry
  | [] => [e]
  | f :: fs =>
    if e.change_percent < f.change_percent then f :: insertByChangeDesc e fs
    else e :: f :: fs

/-- Stable descending sort by change_percent, modelling
suspicious.sort(key=change_percent, reverse=True). -/
def sortByChangeDesc : List SuspiciousEntry → List SuspiciousEntry
  | [] => []
  | e :: es => insertByChangeDesc e (sortByChangeDesc es)

/-- Core of the suspicious-stocks endpoint (src/backend/main.py lines
170-204) after the feed has been fetched: keep the records passing the
suspicious filter in feed order, project each to an entry, sort the
entries by change_percent descending, and return the first 20 together
with the pre-truncation count. -/
def get_suspicious_stocks (data : List Stock) :
    List SuspiciousEntry × ℕ :=
  let suspicious := (data.filter (fun s => is_suspicious s)).map suspiciousEntry
  ((sortByChangeDesc suspicious).take 20, suspicious.length)

/-- Concrete feed record used to exhibit the reordering performed by
the suspicious-stocks endpoint. -/
def stockA : Stock :=
  { symbol := "AAA", lastTradedPrice := 100, percentageChange := 6,
    totalTradeQuantity := 0, highPrice := 0, lowPrice := 0 }

/-- Second concrete feed record, with a larger percent change than
stockA. -/
def stockB : Stock :=
  { symbol := "BBB", lastTradedPrice := 100, percentageChange := 8,
    totalTradeQuantity := 0, highPrice := 0, lowPrice := 0 }

/-- Zero-activity snapshot: no price change, no volume, no session
high/low. -/
def stockZero : Stock :=
  { symbol := "ZZZ", lastTradedPrice := 0, percentageChange := 0,
    totalTradeQuantity := 0, highPrice := 0, lowPrice := 0 }

/-- One stored alert (class Alert, src/backend/main.py lines 30-36). -/
structure AlertRec where
  id : ℕ
  stock_symbol : String
  alert_type : String
  message : String
  timestamp : String
  risk_level : String
deriving Repr, DecidableEq

/-- Request body of the create-alert endpoint: a dict whose fields may
be absent, defaulted by dict.get in src/backend/main.py lines
219-223. -/
structure AlertRequest where
  stock_symbol : Option String
  alert_type : Option String
  message : Option String
  risk_level : Option String
deriving Repr, DecidableEq

/-- Mutable module state of the alert ledger: the alerts_db list and
the alert_counter (src/backend/main.py lines 38-40). -/
structure LedgerState where
  alerts_db : List AlertRec
  alert_counter : ℕ
deriving Repr, DecidableEq

/-- Initial ledger state: empty list, counter zero. -/
def initialLedger : LedgerState := { alerts_db := [], alert_counter := 0 }

/-- Core of the create-alert endpoint (src/backend/main.py lines
211-232): increment the counter, build the alert with defaulted fields
and the incremented counter as id, append it, and drop the oldest entry
when the list exceeds 50.  The current wall-clock time is passed in as
`now`. -/
def create_alert (st : LedgerState) (req : AlertRequest) (now : String) :
    LedgerState × AlertRec :=
  let counter := st.alert_counter + 1
  let new_alert : AlertRec :=
    { id := counter
      stock_symbol := req.stock_symbol.getD ("N/A")
      alert_type := req.alert_type.getD ("price_spike")
      message := req.message.getD ("Alert created")
      timestamp := now
      risk_level := req.risk_level.getD ("Medium") }
  let db := st.alerts_db ++ [new_alert]
  let db := if 50 < db.length then db.drop 1 else db
  ({ alerts_db := db, alert_counter := counter }, new_alert)

/-- Core of the delete-alert endpoint (src/backend/main.py lines
234-239): keep every alert whose id differs, leave the counter alone,
and unconditionally answer with the success message. -/
def delete_alert (st : LedgerState) (alert_id : ℕ) :
    LedgerState × String :=
  ({ alerts_db := st.alerts_db.filter (fun a => a.id ≠ alert_id)
     alert_counter := st.alert_counter }, "Alert deleted")

/-- Operations the serving layer performs on the ledger state. -/
inductive LedgerOp where
  | create (req : AlertRequest) (now : String)
  | delete (alert_id : ℕ)

/-- State transition of one ledger operation. -/
def applyOp (st : LedgerState) : LedgerOp → LedgerState
  | LedgerOp.create req now => (create_alert st req now).1
  | LedgerOp.delete i => (delete_alert st i).1

/-- Run a sequence of ledger operations from a starting state. -/
def runOps (st : LedgerState) : List LedgerOp → LedgerState
  | [] => st
  | op :: ops => runOps (applyOp st op) ops

/-- Fixed request body used for the concrete 51-insert scenario. -/
def reqA : AlertRequest :=
  { stock_symbol := some "AAA", alert_type := some "volume_surge",
    message := some "watch this", risk_level := some "High" }

/-- Fixed timestamp string passed to create_alert in concrete
scenarios. -/
def tsNow : String := "2025-01-01T00:00:00"

/-- Sequence of ids handed out while running a sequence of ledger
operations: each create returns the incremented counter as the new
alert's id (src/backend/main.py lines 214-218). -/
def assignedIds (st : LedgerState) : List LedgerOp → List ℕ
  | [] => []
  | LedgerOp.create req now :: ops =>
    (st.alert_counter + 1) ::
      assignedIds (applyOp st (LedgerOp.create req now)) ops
  | LedgerOp.delete i :: ops =>
    assignedIds (applyOp st (LedgerOp.delete i)) ops

/-- Concrete stored alert with id 3, used to witness the
idempotent-delete theorem. -/
def alertRec3 : AlertRec :=
  { id := 3, stock_symbol := "AAA", alert_type := "price_spike",
    message := "m", timestamp := "t", risk_level := "Low" }

/-- Concrete ledger state holding one alert with id 3, used to witness
the idempotent-delete theorem. -/
def ledgerWith3 : LedgerState :=
  { alerts_db := [alertRec3], alert_counter := 3 }

/-- C1: for every analyzed stock record, Strategy B's raw risk score is
the sum of the three independent, order-independent contributions
(price-change tier, volume tier, volatility), and the signal list is the
concatenation of the signals each triggered check appends. -/
theorem strategyB_score_is_sum_of_contributions (stock : Stock) :
    (scoreChecks stock).2 =
      specPriceScore stock.percentageChange +
        specVolumeScore stock.totalTradeQuantity +
        specVolatilityScore stock.highPrice stock.lowPrice ∧
    (scoreChecks stock).1 =
      specPriceSignals stock.percentageChange ++
        specVolumeSignals stock.totalTradeQuantity ++
        specVolatilitySignals stock.highPrice stock.lowPrice := by
  unfold scoreChecks specPriceScore specVolumeScore specVolatilityScore
    specPriceSignals specVolumeSignals specVolatilitySignals
  by_cases h1 : stock.percentageChange > 10 <;>
    by_cases h2 : stock.percentageChange > 5 <;>
    by_cases h3 : stock.totalTradeQuantity > 100000 <;>
    by_cases h4 : stock.totalTradeQuantity > 50000 <;>
    by_cases h5 : stock.highPrice > 0 ∧ stock.lowPrice > 0 <;>
    by_cases h6 : ((stock.highPrice - stock.lowPrice) / stock.lowPrice) * 100 > 5 <;>
    simp [h1, h2, h3, h4, h5, h6]

/-- The raw score accumulated by the scoring loop never exceeds 90:
the three checks contribute at most 40, 30 and 20. -/
theorem scoreChecks_snd_le_90 (stock : Stock) : (scoreChecks stock).2 ≤ 90 := by
  unfold scoreChecks
  by_cases h1 : stock.percentageChange > 10 <;>
    by_cases h2 : stock.percentageChange > 5 <;>
    by_cases h3 : stock.totalTradeQuantity > 100000 <;>
    by_cases h4 : stock.totalTradeQuantity > 50000 <;>
    by_cases h5 : stock.highPrice > 0 ∧ stock.lowPrice > 0 <;>
    by_cases h6 : ((stock.highPrice - stock.lowPrice) / stock.lowPrice) * 100 > 5 <;>
    simp [h1, h2, h3, h4, h5, h6]

/-- The clamp min(risk_score, 100) applied when building the response
never changes the raw score, because the raw score is at most 90. -/
theorem risk_score_eq_raw (stock : Stock) :
    (analyze_stock stock).risk_score = (scoreChecks stock).2 := by
  unfold analyze_stock
  exact Nat.min_eq_left (Nat.le_trans (scoreChecks_snd_le_90 stock) (by omega))

/-- C10: for every input, the raw Strategy B score is at most 90, the
final clamp min(score, 100) never changes the value, and the returned
risk_score lies in [0, 90]. -/
theorem strategyB_raw_score_at_most_90 (stock : Stock) :
    (scoreChecks stock).2 ≤ 90 ∧
    min (scoreChecks stock).2 100 = (scoreChecks stock).2 ∧
    0 ≤ (analyze_stock stock).risk_score ∧
    (analyze_stock stock).risk_score ≤ 90 := by
  refine ⟨scoreChecks_snd_le_90 stock, ?_, Nat.zero_le _, ?_⟩
  · exact Nat.min_eq_left (Nat.le_trans (scoreChecks_snd_le_90 stock) (by omega))
  · rw [risk_score_eq_raw]
    exact scoreChecks_snd_le_90 stock

/-- C2: for all snapshots, Strategy B's returned score lies in [0, 100]
(the clamp), and the risk tier is High exactly when the returned score
is at least 70, Medium exactly when it is at least 40 and below 70, and
Low otherwise; both boundaries 40 and 70 are inclusive at the lower
edge. -/
theorem strategyB_score_clamped_and_tiers (stock : Stock) :
    0 ≤ (analyze_stock stock).risk_score ∧
    (analyze_stock stock).risk_score ≤ 100 ∧
    ((analyze_stock stock).risk_level = RiskLevel.high ↔
      70 ≤ (analyze_stock stock).risk_score) ∧
    ((analyze_stock stock).risk_level = RiskLevel.medium ↔
      40 ≤ (analyze_stock stock).risk_score ∧
        (analyze_stock stock).risk_score < 70) ∧
    ((analyze_stock stock).risk_level = RiskLevel.low ↔
      (analyze_stock stock).risk_score < 40) := by
  have hraw := risk_score_eq_raw stock
  have hlevel : (analyze_stock stock).risk_level =
      (riskLevelAndSignals (scoreChecks stock).2 (scoreChecks stock).1).1 := rfl
  refine ⟨Nat.zero_le _, ?_, ?_⟩
  · rw [hraw]
    exact Nat.le_trans (scoreChecks_snd_le_90 stock) (by omega)
  · rw [hraw, hlevel]
    unfold riskLevelAndSignals
    by_cases h70 : (scoreChecks stock).2 ≥ 70 <;>
      by_cases h40 : (scoreChecks stock).2 ≥ 40 <;>
      simp [h70, h40] <;> omega

/-- When the scoring loop triggers no signal, it also accumulates no
score: every check appends a signal exactly when it adds its weight. -/
theorem scoreChecks_score_zero_of_no_signals (stock : Stock)
    (h : (scoreChecks stock).1 = []) : (scoreChecks stock).2 = 0 := by
  revert h
  unfold scoreChecks
  by_cases h1 : stock.percentageChange > 10 <;>
    by_cases h2 : stock.percentageChange > 5 <;>
    by_cases h3 : stock.totalTradeQuantity > 100000 <;>
    by_cases h4 : stock.totalTradeQuantity > 50000 <;>
    by_cases h5 : stock.highPrice > 0 ∧ stock.lowPrice > 0 <;>
    by_cases h6 : ((stock.highPrice - stock.lowPrice) / stock.lowPrice) * 100 > 5 <;>
    simp [h1, h2, h3, h4, h5, h6]

/-- C8: for every analyzed record, if the computed risk level is Low and
none of the scoring checks triggered a signal, then the response carries
exactly one "no suspicious patterns" signal; and in every case the
returned signal list is nonempty. -/
theorem low_risk_fallback_signal (stock : Stock) :
    ((analyze_stock stock).risk_level = RiskLevel.low ∧
        (scoreChecks stock).1 = [] →
      (analyze_stock stock).signals = [Signal.noSuspiciousPatterns]) ∧
    (analyze_stock stock).signals ≠ [] := by
  have hsig : (analyze_stock stock).signals =
      (riskLevelAndSignals (scoreChecks stock).2 (scoreChecks stock).1).2 := rfl
  rw [hsig]
  unfold riskLevelAndSignals
  by_cases h70 : (scoreChecks stock).2 ≥ 70
  · have hz := scoreChecks_score_zero_of_no_signals stock
    constructor
    · intro ⟨_, hempty⟩
      exact absurd (hz hempty) (by omega)
    · intro hempty
      simp [h70] at hempty
      exact absurd (hz hempty) (by omega)
  · by_cases h40 : (scoreChecks stock).2 ≥ 40
    · have hz := scoreChecks_score_zero_of_no_signals stock
      constructor
      · intro ⟨_, hempty⟩
        exact absurd (hz hempty) (by omega)
      · intro hempty
        simp [h70, h40] at hempty
        exact absurd (hz hempty) (by omega)
    · constructor
      · intro ⟨_, hempty⟩
        simp [h70, h40, hempty]
      · by_cases hempty : (scoreChecks stock).1 = [] <;>
          simp [h70, h40, hempty]

/-- C8 witness: the zero-activity snapshot is classified Low with no
triggered check, so its response carries exactly the fallback signal and
its signal list is nonempty. -/
theorem low_risk_fallback_signal_witness :
    (analyze_stock stockZero).signals = [Signal.noSuspiciousPatterns] ∧
    (analyze_stock stockZero).signals ≠ [] :=
  ⟨(low_risk_fallback_signal stockZero).1 ⟨by decide, by decide⟩,
    (low_risk_fallback_signal stockZero).2⟩

/-- C9: the volatility ratio is computed only under the guard
high > 0 and low > 0, so its division never has a zero divisor: the
fallible variant of the scoring loop always succeeds, and it agrees with
the total embedding on every input. -/
theorem volatility_division_never_zero (stock : Stock) :
    scoreChecksChecked stock = some (scoreChecks stock) := by
  unfold scoreChecksChecked scoreChecks checkedDiv
  by_cases h5 : stock.highPrice > 0 ∧ stock.lowPrice > 0
  · have hlow : stock.lowPrice ≠ 0 := ne_of_gt h5.2
    simp [h5, hlow]
    split <;> rfl
  · simp [h5]

/-- The tiered classifier labels a record PUMP exactly when the PUMP
condition holds. -/
theorem classifyPattern_pump_iff (s c : ℚ) :
    classifyPattern s c = Pattern.pump ↔ s ≥ 3 ∧ c ≥ 5 := by
  unfold classifyPattern
  split_ifs with h1 h2 h3 <;> simp_all

/-- The tiered classifier labels a record DUMP exactly when the DUMP
condition holds: the PUMP condition, checked first, cannot hold at the
same time since change cannot be both at least 5 and at most -5. -/
theorem classifyPattern_dump_iff (s c : ℚ) :
    classifyPattern s c = Pattern.dump ↔ s ≥ 3 ∧ c ≤ -5 := by
  unfold classifyPattern
  split_ifs with h1 h2 h3
  · simp_all
    linarith
  · simp_all
  · simp_all
  · simp_all

/-- The tiered classifier labels a record UNUSUAL exactly when the
UNUSUAL condition holds and neither of the two earlier conditions
does. -/
theorem classifyPattern_unusual_iff (s c : ℚ) :
    classifyPattern s c = Pattern.unusual ↔
      (s ≥ 2 ∨ |c| ≥ 3) ∧ ¬(s ≥ 3 ∧ c ≥ 5) ∧ ¬(s ≥ 3 ∧ c ≤ -5) := by
  unfold classifyPattern
  split_ifs with h1 h2 h3 <;> simp_all

/-- The tiered classifier labels a record NORMAL exactly when the spike
ratio is below 2 and the absolute percent change is below 3: the first
two conditions both force a spike ratio of at least 3. -/
theorem classifyPattern_normal_iff (s c : ℚ) :
    classifyPattern s c = Pattern.normal ↔ s < 2 ∧ |c| < 3 := by
  unfold classifyPattern
  split_ifs with h1 h2 h3
  · simp_all
    intro hs
    linarith [h1.1]
  · simp_all
    intro hs
    linarith [h2.1]
  · simp_all
    intro hs
    rcases h3 with h3 | h3
    · linarith
    · exact h3
  · simp_all [not_or]

/-- C3: the program supports, as a selectable strategy alongside the
weighted scorer, a tiered threshold classifier mapping spike ratio and
percent change to a pattern label; its label is PUMP exactly when
spike ≥ 3 and change ≥ 5, DUMP exactly when spike ≥ 3 and change ≤ −5,
UNUSUAL exactly when (spike ≥ 2 or abs change ≥ 3) and neither the PUMP
nor the DUMP condition holds, and NORMAL exactly when spike < 2 and
abs change < 3. -/
theorem strategyA_tiered_threshold_classifier (stock : Stock) (spike : ℚ) :
    classify Strategy.tiered stock spike =
      Classification.labeled (classifyPattern spike stock.percentageChange) ∧
    classify Strategy.weighted stock spike =
      Classification.scored (analyze_stock stock) ∧
    ∀ s c : ℚ,
      (classifyPattern s c = Pattern.pump ↔ s ≥ 3 ∧ c ≥ 5) ∧
      (classifyPattern s c = Pattern.dump ↔ s ≥ 3 ∧ c ≤ -5) ∧
      (classifyPattern s c = Pattern.unusual ↔
        (s ≥ 2 ∨ |c| ≥ 3) ∧ ¬(s ≥ 3 ∧ c ≥ 5) ∧ ¬(s ≥ 3 ∧ c ≤ -5)) ∧
      (classifyPattern s c = Pattern.normal ↔ s < 2 ∧ |c| < 3) :=
  ⟨rfl, rfl, fun s c =>
    ⟨classifyPattern_pump_iff s c, classifyPattern_dump_iff s c,
      classifyPattern_unusual_iff s c, classifyPattern_normal_iff s c⟩⟩

/-- Members of an insertion are the inserted element and the members of
the original list. -/
theorem mem_insertByChangeDesc (a e : SuspiciousEntry)
    (l : List SuspiciousEntry) :
    a ∈ insertByChangeDesc e l ↔ a = e ∨ a ∈ l := by
  induction l with
  | nil => simp [insertByChangeDesc]
  | cons f fs ih =>
    unfold insertByChangeDesc
    split_ifs with h
    · simp only [List.mem_cons, ih]
      tauto
    · simp only [List.mem_cons]

/-- Inserting into a list sorted by change_percent descending keeps it
sorted. -/
theorem sorted_insertByChangeDesc (e : SuspiciousEntry)
    (l : List SuspiciousEntry)
    (h : l.Pairwise (fun a b => b.change_percent ≤ a.change_percent)) :
    (insertByChangeDesc e l).Pairwise
      (fun a b => b.change_percent ≤ a.change_percent) := by
  induction l with
  | nil => simp [insertByChangeDesc]
  | cons f fs ih =>
    rw [List.pairwise_cons] at h
    unfold insertByChangeDesc
    split_ifs with hlt
    · rw [List.pairwise_cons]
      refine ⟨fun a ha => ?_, ih h.2⟩
      rw [mem_insertByChangeDesc] at ha
      rcases ha with rfl | ha
      · exact le_of_lt hlt
      · exact h.1 a ha
    · rw [List.pairwise_cons]
      refine ⟨fun a ha => ?_, List.pairwise_cons.mpr h⟩
      rcases List.mem_cons.mp ha with rfl | ha
      · exact not_lt.mp hlt
      · exact le_trans (h.1 a ha) (not_lt.mp hlt)

/-- The stable descending sort produces a list sorted by change_percent
descending. -/
theorem sorted_sortByChangeDesc (l : List SuspiciousEntry) :
    (sortByChangeDesc l).Pairwise
      (fun a b => b.change_percent ≤ a.change_percent) := by
  induction l with
  | nil => simp [sortByChangeDesc]
  | cons e es ih => exact sorted_insertByChangeDesc e _ ih

/-- The stable descending sort does not add or drop elements. -/
theorem mem_sortByChangeDesc (a : SuspiciousEntry)
    (l : List SuspiciousEntry) : a ∈ sortByChangeDesc l ↔ a ∈ l := by
  induction l with
  | nil => simp [sortByChangeDesc]
  | cons e es ih =>
    unfold sortByChangeDesc
    rw [mem_insertByChangeDesc]
    simp [ih]

/-- C4 counterexample: on the feed [stockA, stockB], both records pass
the suspicious filter, yet the returned list is not an order-preserving
selection from the feed: the endpoint sorts by change_percent
descending, so stockB's entry comes first and the result is neither a
sublist of the projected feed nor the order-preserving filter of it. -/
theorem get_suspicious_stocks_reorders :
    ¬ List.Sublist (get_suspicious_stocks [stockA, stockB]).1
        ([stockA, stockB].map suspiciousEntry) ∧
    (get_suspicious_stocks [stockA, stockB]).1 ≠
      (([stockA, stockB].filter (fun s => is_suspicious s)).map
        suspiciousEntry) := by
  constructor
  · intro h
    have hres : (get_suspicious_stocks [stockA, stockB]).1 =
        [suspiciousEntry stockB, suspiciousEntry stockA] := by decide
    rw [hres] at h
    revert h
    decide
  · decide

/-- C4 amended: for every input stock set, every element of the
suspicious-stocks response is the projection of some input record that
satisfies the suspicious predicate (so the response is a subset of the
input, up to projection), the response holds at most 20 entries, and it
is ordered by change_percent descending — not in the original feed
order. -/
theorem get_suspicious_stocks_sound_sorted (data : List Stock) :
    (∀ e ∈ (get_suspicious_stocks data).1,
      ∃ s ∈ data, is_suspicious s = true ∧ e = suspiciousEntry s) ∧
    (get_suspicious_stocks data).1.Pairwise
      (fun a b => b.change_percent ≤ a.change_percent) ∧
    (get_suspicious_stocks data).1.length ≤ 20 := by
  refine ⟨?_, ?_, ?_⟩
  · intro e he
    have hmem : e ∈ sortByChangeDesc
        ((data.filter (fun s => is_suspicious s)).map suspiciousEntry) :=
      List.mem_of_mem_take he
    rw [mem_sortByChangeDesc] at hmem
    rw [List.mem_map] at hmem
    obtain ⟨s, hs, rfl⟩ := hmem
    rw [List.mem_filter] at hs
    exact ⟨s, hs.1, hs.2, rfl⟩
  · exact (sorted_sortByChangeDesc _).sublist (List.take_sublist _ _)
  · have hshape : (get_suspicious_stocks data).1 =
        (sortByChangeDesc
          ((data.filter (fun s => is_suspicious s)).map suspiciousEntry)).take
          20 := rfl
    rw [hshape, List.length_take]
    omega

/-- C4 amended, witness: on the concrete feed [stockA, stockB] the
first returned entry is the projection of a suspicious input record. -/
theorem get_suspicious_stocks_sound_sorted_witness :
    ∃ s ∈ [stockA, stockB],
      is_suspicious s = true ∧ suspiciousEntry stockB = suspiciousEntry s :=
  (get_suspicious_stocks_sound_sorted [stockA, stockB]).1
    (suspiciousEntry stockB) (by decide)

/-- A single ledger operation keeps the alert list within the 50-entry
bound. -/
theorem applyOp_length_le (st : LedgerState) (op : LedgerOp)
    (h : st.alerts_db.length ≤ 50) :
    (applyOp st op).alerts_db.length ≤ 50 := by
  cases op with
  | create req now =>
    have hdb : (applyOp st (LedgerOp.create req now)).alerts_db =
        if 50 < (st.alerts_db ++ [(create_alert st req now).2]).length
        then (st.alerts_db ++ [(create_alert st req now).2]).drop 1
        else st.alerts_db ++ [(create_alert st req now).2] := rfl
    rw [hdb]
    split_ifs with hlen <;> simp_all
  | delete i =>
    exact le_trans (List.length_filter_le _ _) h

/-- Every state reached from a within-bound state stays within the
50-entry bound. -/
theorem runOps_length_le (ops : List LedgerOp) (st : LedgerState)
    (h : st.alerts_db.length ≤ 50) :
    (runOps st ops).alerts_db.length ≤ 50 := by
  induction ops generalizing st with
  | nil => exact h
  | cons op ops ih => exact ih _ (applyOp_length_le st op h)

set_option maxRecDepth 8192 in
/-- C5: the alert ledger never holds more than 50 alerts, and creating
one past the bound evicts the oldest entry first-in-first-out: from the
initial state, any operation sequence leaves at most 50 alerts, and
after 51 consecutive creations the list holds exactly the alerts with
ids 2 through 51 in insertion order — the first-created alert (id 1) is
gone and every other alert is retained. -/
theorem ledger_capacity_fifo :
    (∀ ops : List LedgerOp,
      (runOps initialLedger ops).alerts_db.length ≤ 50) ∧
    (runOps initialLedger
        (List.replicate 51 (LedgerOp.create reqA tsNow))).alerts_db.length
      = 50 ∧
    (runOps initialLedger
        (List.replicate 51 (LedgerOp.create reqA tsNow))).alerts_db.map
          (fun a => a.id)
      = List.range' 2 50 := by
  refine ⟨fun ops => runOps_length_le ops initialLedger (by decide),
    by decide, by decide⟩

/-- Ids assigned from any state are strictly increasing, and all exceed
the starting counter: deletions never touch the counter and each
creation increments it. -/
theorem assignedIds_pairwise (ops : List LedgerOp) (st : LedgerState) :
    (assignedIds st ops).Pairwise (· < ·) ∧
    ∀ i ∈ assignedIds st ops, st.alert_counter < i := by
  induction ops generalizing st with
  | nil => simp [assignedIds]
  | cons op ops ih =>
    cases op with
    | create req now =>
      have h' := ih ((create_alert st req now).1)
      have hcounter : ((create_alert st req now).1).alert_counter =
          st.alert_counter + 1 := rfl
      rw [hcounter] at h'
      unfold assignedIds
      constructor
      · rw [List.pairwise_cons]
        exact ⟨fun i hi => h'.2 i hi, h'.1⟩
      · intro i hi
        rcases List.mem_cons.mp hi with rfl | hi
        · exact Nat.lt_succ_self _
        · exact Nat.lt_of_succ_lt (h'.2 i hi)
    | delete j =>
      have h' := ih ((delete_alert st j).1)
      exact h'

/-- C6: every call to create_alert assigns an id strictly greater than
all previously assigned ids, so over any sequence of creations and
deletions from the initial state the assigned ids are strictly
increasing and pairwise distinct — unique over the process lifetime,
across deletions and capacity evictions. -/
theorem alert_ids_monotonic_and_unique (ops : List LedgerOp) :
    (assignedIds initialLedger ops).Pairwise (· < ·) ∧
    (assignedIds initialLedger ops).Nodup :=
  ⟨(assignedIds_pairwise ops initialLedger).1,
    List.Pairwise.imp Nat.ne_of_lt
      (assignedIds_pairwise ops initialLedger).1⟩

/-- C7: delete_alert removes every alert whose id matches; when no
stored alert has the requested id the ledger is left exactly as it was;
and the endpoint answers with the success message in every case, so
deleting a non-existent id is a no-op rather than an error. -/
theorem delete_alert_removes_and_is_idempotent (st : LedgerState)
    (alert_id : ℕ) :
    (∀ a ∈ (delete_alert st alert_id).1.alerts_db, a.id ≠ alert_id) ∧
    ((∀ a ∈ st.alerts_db, a.id ≠ alert_id) →
      (delete_alert st alert_id).1 = st) ∧
    (delete_alert st alert_id).2 = "Alert deleted" := by
  refine ⟨?_, ?_, rfl⟩
  · intro a ha
    have hmem := List.of_mem_filter ha
    simpa using hmem
  · intro h
    obtain ⟨db, c⟩ := st
    simp only [delete_alert, LedgerState.mk.injEq]
    refine ⟨?_, by trivial⟩
    apply List.filter_eq_self.mpr
    intro a ha
    simpa using h a ha

/-- C7 witness: deleting the absent id 7 from the concrete one-alert
ledger touches nothing and still reports success. -/
theorem delete_alert_removes_and_is_idempotent_witness :
    (∀ a ∈ (delete_alert ledgerWith3 7).1.alerts_db, a.id ≠ 7) ∧
    (delete_alert ledgerWith3 7).1 = ledgerWith3 ∧
    (delete_alert ledgerWith3 7).2 = "Alert deleted" :=
  ⟨(delete_alert_removes_and_is_idempotent ledgerWith3 7).1,
    (delete_alert_removes_and_is_idempotent ledgerWith3 7).2.1
      (by simp [ledgerWith3, alertRec3]),
    (delete_alert_removes_and_is_idempotent ledgerWith3 7).2.2⟩

end Nepse
